import Mathlib

/-
  Verification development for the bootstrap layer of the bandwhich
  bandwidth monitor (src/os/shared.rs).

  The Rust code is shallowly embedded: external, effectful collaborators
  (the pnet datalink layer, tokio runtime construction, the DNS resolver,
  signal registration) are modelled as deterministic oracles packed in an
  `Env` record, and `get_input` is a pure function from that environment
  to an outcome.  Alongside the outcome we thread a `Trace` recording the
  observable effects the claims talk about: which interfaces the channel
  opener was invoked on (in order), and whether the DNS bootstrap
  (tokio `Runtime::new`) was reached.

  A central point of the embedding: in the source, `network_frames` is a
  lazy `map` iterator.  The code clones that iterator, drains the clone to
  collect the available channels, and then — on the empty-available error
  path — drains the *original*, which re-invokes `get_datalink_channel`
  once more per candidate until the first permission-denied failure.  The
  embedding reproduces this re-evaluation faithfully in the trace.
-/

namespace Bandwhich

/-- Kinds of `std::io::Error` relevant to this layer (`ErrorKind` in the
source; only `PermissionDenied` is inspected, every other kind is
collapsed into `other`, with `notFound` kept as a second distinguishable
non-permission kind). -/
inductive ErrorKind
  | permissionDenied
  | notFound
  | other
deriving DecidableEq, Repr

/-- A `std::io::Error`: a kind plus a message. -/
structure IoError where
  kind : ErrorKind
  msg : String
deriving DecidableEq, Repr

/-- A raw channel as returned by `datalink::channel`: either an Ethernet
(link-layer) sender/receiver pair, or some other unsupported channel
kind.  Senders and receivers are abstracted to numeric handles. -/
inductive Channel
  | ethernet (tx : Nat) (rx : Nat)
  | unsupported (tag : Nat)
deriving DecidableEq, Repr

/-- The slice of `datalink::Config` this layer touches: the read timeout,
as (seconds, nanoseconds).  `Config::default()` has no timeout. -/
structure Config where
  readTimeout : Option (Nat × Nat) := none
deriving DecidableEq, Repr

/-- A discovered network interface: name, assigned IP addresses
(abstracted to numbers), and administrative up/down state
(`NetworkInterface` with `is_up()` in the source). -/
structure NetworkInterface where
  name : String
  ips : List Nat
  up : Bool
deriving DecidableEq, Repr

/-- `iface.is_up()` from the pnet interface snapshot. -/
def NetworkInterface.is_up (iface : NetworkInterface) : Bool :=
  iface.up

/-- The deterministic environment of one bootstrap run: the interface
directory, the raw channel opener, and the outcomes of the fallible
external constructions (`Runtime::new`, `dns::Resolver::new`,
`dns::Client::new`, `Signals::new`). -/
structure Env where
  interfaces : List NetworkInterface
  channel : NetworkInterface → Config → Except IoError Channel
  runtimeNew : Except String Unit
  resolverNew : Except Unit Unit
  clientNew : Except String Unit
  signalsNew : Except String Unit

/-- `get_datalink_channel` from the source: configures a 1-second read
timeout on a default config, opens the channel, accepts only the
Ethernet kind (returning its receiver), turns any other kind into an
`Other`-kind "Unsupported interface type" error, and passes an opener
failure through unchanged. -/
def get_datalink_channel
    (channel_fn : NetworkInterface → Config → Except IoError Channel)
    (interface : NetworkInterface) : Except IoError Nat :=
  let config : Config := { readTimeout := some (1, 0) }
  match channel_fn interface config with
  | .ok (.ethernet _tx rx) => .ok rx
  | .ok (.unsupported _) => .error { kind := .other, msg := "Unsupported interface type" }
  | .error e => .error e

/-- `get_interface` from the source: first interface in discovery order
whose name matches. -/
def get_interface (env : Env) (interface_name : String) : Option NetworkInterface :=
  env.interfaces.find? (fun iface => iface.name == interface_name)

/-- Build-time target platform, selecting the permission-error text. -/
inductive Platform
  | linux
  | macos
  | freebsd
deriving DecidableEq, Repr

/-- `eperm_message` from the source, per target platform. -/
def eperm_message : Platform → String
  | .macos | .freebsd =>
      "Insufficient permissions to listen on network interface(s). Try running with sudo."
  | .linux =>
      "\n    Insufficient permissions to listen on network interface(s). You can work around\n    this issue like this:\n\n    * Try running `bandwhich` with `sudo`\n\n    * Build a `setcap(8)` wrapper for `bandwhich` with the following rules:\n        `cap_sys_ptrace,cap_dac_read_search,cap_net_raw,cap_net_admin+ep`\n    "

/-- Terminal input events are abstracted to numeric codes. -/
abbrev Event := Nat

/-- One pull of the `KeyboardEvents` iterator, embedding
`match stdin().events().next() ... Some(Ok(ev)) => Some(ev), _ => None`.
The underlying terminal source is the remaining sequence of read
results; an empty sequence is a closed / ended source. -/
def keyboard_events_next :
    List (Except String Event) → Option Event × List (Except String Event)
  | [] => (none, [])
  | Except.ok ev :: rest => (some ev, rest)
  | Except.error _ :: rest => (none, rest)

/-- `n` consecutive pulls of the keyboard stream. -/
def keyboard_pulls : Nat → List (Except String Event) → List (Option Event)
  | 0, _ => []
  | n + 1, src =>
      let (o, rest) := keyboard_events_next src
      o :: keyboard_pulls n rest

/-- The resize signal number (`signal_hook::SIGWINCH`). -/
def SIGWINCH : Nat := 28

/-- Outcome of `sigwinch()` bridge construction: either the handler pair,
or a panic (from `.unwrap()` on a failed `Signals::new`). -/
inductive SigwinchResult
  | handlers
  | panicked
deriving DecidableEq, Repr

/-- `sigwinch` from the source: performs the OS signal subscription
eagerly (`Signals::new(&[SIGWINCH]).unwrap()`) and panics right away if
registration fails; otherwise returns the handler pair. -/
def sigwinch (signals_new : Except String Unit) : SigwinchResult :=
  match signals_new with
  | .ok _ => .handlers
  | .error _ => .panicked

/-- Outcome of the `on_winch` loop body over a finite run of delivered
signals: either the subscription was closed after some number of
callback invocations, or a non-SIGWINCH signal hit the `unreachable!()`
branch. -/
inductive WinchLoop
  | stopped (calls : Nat)
  | panicked
deriving DecidableEq, Repr

/-- The `on_winch` closure from the source, run over the finite sequence
of signals delivered before the subscription is closed: each SIGWINCH
invokes the callback once, any other signal is `unreachable!()`. -/
def on_winch_run : List Nat → Nat → WinchLoop
  | [], calls => .stopped calls
  | s :: rest, calls =>
      if s = SIGWINCH then on_winch_run rest (calls + 1) else .panicked

/-- Result of one invocation of the stdout sink: the new flushed stdout
contents on success, a panic on write failure (`writeln!(..).unwrap()`),
with an error constructor that the reference behavior never produces. -/
inductive WriteResult
  | ok (stdout : List String)
  | err (e : String)
  | panicked
deriving DecidableEq, Repr

/-- The closure made by `create_write_to_stdout`: writes the line plus a
line terminator to standard output (line-buffered, so the newline
flushes it); a failed write panics via `.unwrap()` instead of returning
an error value. -/
def write_to_stdout (write_succeeds : Bool) (output : String)
    (stdout : List String) : WriteResult :=
  if write_succeeds then .ok (stdout ++ [output ++ "\n"]) else .panicked

/-- The `OsInputOutput` bundle as constructed at the end of `get_input`.
The capability and closure fields carry no further observable data in
this model and are units. -/
structure OsInputOutput where
  network_interfaces : List NetworkInterface
  network_frames : List Nat
  get_open_sockets : Unit
  keyboard_events : Unit
  dns_client : Option Unit
  on_winch : Unit
  cleanup : Unit
  write_to_stdout : Unit
deriving DecidableEq, Repr

/-- A `failure::Error` escaping `get_input`: either a `failure::bail!`
message minted by this layer, or a foreign error propagated by `?` from
`Runtime::new` or `dns::Client::new`. -/
inductive BError
  | bail (msg : String)
  | runtimeCreation (e : String)
  | dnsClientCreation (e : String)
deriving DecidableEq, Repr

/-- Outcome of a `get_input` call: the bundle, an error, or a panic. -/
inductive Outcome
  | ok (bundle : OsInputOutput)
  | err (e : BError)
  | panicked
deriving DecidableEq, Repr

/-- Observable effects of one bootstrap run: the names of the interfaces
`get_datalink_channel` was invoked on, in order (re-invocations
included), and whether the DNS bootstrap (the `Runtime::new` call) was
reached. -/
structure Trace where
  openAttempts : List String
  dnsAttempted : Bool
deriving DecidableEq, Repr

/-- The usability filter of the orchestrator:
`iface.is_up() && !iface.ips.is_empty()`. -/
def is_usable (iface : NetworkInterface) : Bool :=
  iface.is_up && !iface.ips.isEmpty

/-- First drain of the lazy frames iterator: attempt a channel per
candidate in order, keeping the interfaces whose open succeeded paired
with their receivers (order-preserving, in-place filter). -/
def collect_available (env : Env) :
    List NetworkInterface → List NetworkInterface × List Nat
  | [] => ([], [])
  | iface :: rest =>
      let tail := collect_available env rest
      match get_datalink_channel env.channel iface with
      | .ok rx => (iface :: tail.1, rx :: tail.2)
      | .error _ => tail

/-- Second drain of the frames iterator on the empty-available path: the
`for` loop re-invokes the opener per candidate, bailing with the
platform permission message at the first `PermissionDenied` failure, and
falling through to the generic message.  Returns the error together with
the names attempted during this second pass. -/
def inspect_failures (env : Env) (plat : Platform) :
    List NetworkInterface → BError × List String
  | [] => (.bail "Failed to find any network interface to listen on.", [])
  | iface :: rest =>
      match get_datalink_channel env.channel iface with
      | .error e =>
          if e.kind = .permissionDenied then
            (.bail (eperm_message plat), [iface.name])
          else
            let tail := inspect_failures env plat rest
            (tail.1, iface.name :: tail.2)
      | .ok _ =>
          let tail := inspect_failures env plat rest
          (tail.1, iface.name :: tail.2)

/-- Whether a candidate's channel open fails with a permission error. -/
def has_perm_error (env : Env) (iface : NetworkInterface) : Bool :=
  match get_datalink_channel env.channel iface with
  | .error e => e.kind = .permissionDenied
  | .ok _ => false

/-- The DNS bootstrap block of `get_input` under `resolve = true`:
create the tokio runtime (`?` propagates its error), drive
`dns::Resolver::new` to completion (its error is swallowed and replaced
by the fixed offline message), wrap into `dns::Client::new` (`?`
propagates its error). -/
def dns_step (env : Env) : Except BError (Option Unit) :=
  match env.runtimeNew with
  | .error e => .error (.runtimeCreation e)
  | .ok _ =>
      match env.resolverNew with
      | .error _ => .error (.bail "Could not initialize the DNS resolver. Are you offline?")
      | .ok _ =>
          match env.clientNew with
          | .error e => .error (.dnsClientCreation e)
          | .ok _ => .ok (some ())

/-- The interface selection of `get_input`: a named interface resolved
through the directory (`none` when absent), or the whole directory. -/
def candidates_of (env : Env) (interface_name : Option String) :
    Option (List NetworkInterface) :=
  match interface_name with
  | some name =>
      match get_interface env name with
      | some interface => some [interface]
      | none => none
  | none => some env.interfaces

/-- The bundle construction at the end of `get_input`. -/
def mk_bundle (interfaces : List NetworkInterface) (frames : List Nat)
    (dns_client : Option Unit) : OsInputOutput :=
  { network_interfaces := interfaces
    network_frames := frames
    get_open_sockets := ()
    keyboard_events := ()
    dns_client := dns_client
    on_winch := ()
    cleanup := ()
    write_to_stdout := () }

/-- The body of `get_input` after interface selection: filter to usable
candidates, drain the cloned frames iterator, on empty availability
re-drain the original iterator to classify the failure, otherwise build
the keyboard stream and sink, construct the signal bridge (panicking if
registration fails), run the DNS step when requested, and assemble the
bundle. -/
def get_input_core (env : Env) (plat : Platform)
    (network_interfaces : List NetworkInterface) (resolve : Bool) :
    Outcome × Trace :=
  let candidates := network_interfaces.filter is_usable
  let first_pass := candidates.map (fun iface => iface.name)
  let available := collect_available env candidates
  if available.2.isEmpty then
    let second := inspect_failures env plat candidates
    (.err second.1, { openAttempts := first_pass ++ second.2, dnsAttempted := false })
  else
    match sigwinch env.signalsNew with
    | .panicked => (.panicked, { openAttempts := first_pass, dnsAttempted := false })
    | .handlers =>
        match (if resolve then dns_step env else .ok none) with
        | .error e => (.err e, { openAttempts := first_pass, dnsAttempted := resolve })
        | .ok dns_client =>
            (.ok (mk_bundle available.1 available.2 dns_client),
             { openAttempts := first_pass, dnsAttempted := resolve })

/-- `get_input` from the source: resolve the optional interface name
(bailing with the compatibility-sensitive wording when absent, before
any channel is attempted), then run the orchestrator body. -/
def get_input (env : Env) (plat : Platform) (interface_name : Option String)
    (resolve : Bool) : Outcome × Trace :=
  match interface_name with
  | some name =>
      match get_interface env name with
      | some interface => get_input_core env plat [interface] resolve
      | none =>
          (.err (.bail ("Cannot find interface " ++ name)),
           { openAttempts := [], dnsAttempted := false })
  | none => get_input_core env plat env.interfaces resolve

/-- A fully functional concrete environment: one up, addressed interface
whose channel opens as Ethernet, and all external constructions succeed. -/
def eth0 : NetworkInterface := { name := "eth0", ips := [1], up := true }

def env_ok : Env :=
  { interfaces := [eth0]
    channel := fun _ _ => .ok (.ethernet 0 7)
    runtimeNew := .ok ()
    resolverNew := .ok ()
    clientNew := .ok ()
    signalsNew := .ok () }

/-- A concrete environment where the only usable interface fails to open
with a permission error. -/
def env_perm : Env :=
  { interfaces := [eth0]
    channel := fun _ _ => .error { kind := .permissionDenied, msg := "eperm" }
    runtimeNew := .ok ()
    resolverNew := .ok ()
    clientNew := .ok ()
    signalsNew := .ok () }

/-- A concrete environment where the only usable interface fails to open
with a non-permission error. -/
def env_other : Env :=
  { interfaces := [eth0]
    channel := fun _ _ => .error { kind := .other, msg := "no buffer space" }
    runtimeNew := .ok ()
    resolverNew := .ok ()
    clientNew := .ok ()
    signalsNew := .ok () }

/-- A concrete opener that always reports a permission error. -/
def chan_perm : NetworkInterface → Config → Except IoError Channel :=
  fun _ _ => .error { kind := .permissionDenied, msg := "eperm" }

/-- A concrete environment where the DNS client wrapping step fails. -/
def env_dnsclient : Env :=
  { interfaces := [eth0]
    channel := fun _ _ => .ok (.ethernet 0 7)
    runtimeNew := .ok ()
    resolverNew := .ok ()
    clientNew := .error "client construction failed"
    signalsNew := .ok () }

/-- A concrete environment where the resolver construction fails. -/
def env_resolver_fail : Env :=
  { interfaces := [eth0]
    channel := fun _ _ => .ok (.ethernet 0 7)
    runtimeNew := .ok ()
    resolverNew := .error ()
    clientNew := .ok ()
    signalsNew := .ok () }

/-- A concrete environment where the signal subscription fails. -/
def env_sigfail : Env :=
  { interfaces := [eth0]
    channel := fun _ _ => .ok (.ethernet 0 7)
    runtimeNew := .ok ()
    resolverNew := .ok ()
    clientNew := .ok ()
    signalsNew := .error "signal registration failed" }

end Bandwhich

namespace Bandwhich

lemma collect_available_length (env : Env) (l : List NetworkInterface) :
    (collect_available env l).1.length = (collect_available env l).2.length := by
  induction l with
  | nil => rfl
  | cons iface rest ih =>
      simp only [collect_available]
      cases hc : get_datalink_channel env.channel iface with
      | error e => simpa [hc] using ih
      | ok rx => simpa [hc] using ih

lemma collect_available_sublist (env : Env) (l : List NetworkInterface) :
    (collect_available env l).1.Sublist l := by
  induction l with
  | nil => simp [collect_available]
  | cons iface rest ih =>
      simp only [collect_available]
      cases hc : get_datalink_channel env.channel iface with
      | error e => simpa [hc] using ih.cons iface
      | ok rx => simpa [hc] using ih.cons₂ iface

lemma collect_available_spec (env : Env) (l : List NetworkInterface) :
    ∀ (i : Nat) (iface : NetworkInterface),
      (collect_available env l).1.get? i = some iface →
      ∃ rx, (collect_available env l).2.get? i = some rx ∧
        get_datalink_channel env.channel iface = .ok rx := by
  induction l with
  | nil => intro i iface h; simp [collect_available] at h
  | cons a rest ih =>
      intro i iface h
      simp only [collect_available] at h ⊢
      cases hc : get_datalink_channel env.channel a with
      | error e =>
          rw [hc] at h
          exact ih i iface h
      | ok rx =>
          rw [hc] at h
          cases i with
          | zero =>
              simp only [List.get?] at h
              obtain rfl : a = iface := by simpa using h
              exact ⟨rx, by simp, hc⟩
          | succ n =>
              simp only [List.get?] at h
              obtain ⟨rx', h1, h2⟩ := ih n iface h
              exact ⟨rx', by simpa using h1, h2⟩

lemma inspect_failures_fst (env : Env) (plat : Platform) (l : List NetworkInterface) :
    (inspect_failures env plat l).1 =
      .bail (if l.any (has_perm_error env) then eperm_message plat
             else "Failed to find any network interface to listen on.") := by
  induction l with
  | nil => simp [inspect_failures]
  | cons a rest ih =>
      simp only [inspect_failures, List.any_cons]
      cases hc : get_datalink_channel env.channel a with
      | error e =>
          by_cases hk : e.kind = .permissionDenied
          · simp [hc, hk, has_perm_error]
          · simp [hc, hk, has_perm_error, ih]
      | ok rx => simp [hc, has_perm_error, ih]

lemma inspect_failures_snd_cons (env : Env) (plat : Platform)
    (a : NetworkInterface) (rest : List NetworkInterface) :
    ∃ t, (inspect_failures env plat (a :: rest)).2 = a.name :: t := by
  cases hc : get_datalink_channel env.channel a with
  | error e =>
      by_cases hk : e.kind = .permissionDenied
      · exact ⟨[], by simp [inspect_failures, hc, hk]⟩
      · exact ⟨(inspect_failures env plat rest).2, by simp [inspect_failures, hc, hk]⟩
  | ok rx => exact ⟨(inspect_failures env plat rest).2, by simp [inspect_failures, hc]⟩

end Bandwhich

namespace Bandwhich

lemma get_input_core_trace (env : Env) (plat : Platform)
    (l : List NetworkInterface) (resolve : Bool) :
    (get_input_core env plat l resolve).2.openAttempts =
      (l.filter is_usable).map (fun iface => iface.name) ++
        (if (collect_available env (l.filter is_usable)).2.isEmpty
         then (inspect_failures env plat (l.filter is_usable)).2 else []) := by
  unfold get_input_core
  by_cases h : (collect_available env (l.filter is_usable)).2.isEmpty
  · simp [h]
  · simp only [h, if_false, Bool.false_eq_true]
    cases hs : sigwinch env.signalsNew with
    | panicked => simp [h, hs]
    | handlers =>
        cases hd : (if resolve then dns_step env else .ok none) with
        | error e => simp [h, hs, hd]
        | ok c => simp [h, hs, hd]

lemma get_input_core_empty_err (env : Env) (plat : Platform)
    (l : List NetworkInterface) (resolve : Bool)
    (h : (collect_available env (l.filter is_usable)).2 = []) :
    (get_input_core env plat l resolve).1 =
      .err (inspect_failures env plat (l.filter is_usable)).1 := by
  unfold get_input_core
  simp [h]

lemma get_input_core_dns_empty (env : Env) (plat : Platform)
    (l : List NetworkInterface) (resolve : Bool)
    (h : (collect_available env (l.filter is_usable)).2 = []) :
    (get_input_core env plat l resolve).2.dnsAttempted = false := by
  unfold get_input_core
  simp [h]

lemma get_input_core_nonempty (env : Env) (plat : Platform)
    (l : List NetworkInterface) (resolve : Bool)
    (h : ¬(collect_available env (l.filter is_usable)).2 = [])
    (hs : env.signalsNew = .ok ()) :
    get_input_core env plat l resolve =
      ((match (if resolve then dns_step env else .ok none) with
        | .error e => .err e
        | .ok dns_client =>
            .ok (mk_bundle (collect_available env (l.filter is_usable)).1
                  (collect_available env (l.filter is_usable)).2 dns_client)),
       { openAttempts := (l.filter is_usable).map (fun iface => iface.name)
         dnsAttempted := resolve }) := by
  unfold get_input_core
  have hne : (collect_available env (l.filter is_usable)).2.isEmpty = false := by
    simpa [List.isEmpty_iff] using h
  simp only [hne, Bool.false_eq_true, if_false, hs, sigwinch]
  cases hd : (if resolve then dns_step env else .ok none) with
  | error e => simp [hd]
  | ok c => simp [hd]

lemma get_input_core_sig_panic (env : Env) (plat : Platform)
    (l : List NetworkInterface) (resolve : Bool)
    (h : ¬(collect_available env (l.filter is_usable)).2 = [])
    (s : String) (hs : env.signalsNew = .error s) :
    (get_input_core env plat l resolve).1 = .panicked := by
  unfold get_input_core
  have hne : (collect_available env (l.filter is_usable)).2.isEmpty = false := by
    simpa [List.isEmpty_iff] using h
  simp [hne, hs, sigwinch]

lemma get_input_core_ok_shape (env : Env) (plat : Platform)
    (l : List NetworkInterface) (resolve : Bool) (b : OsInputOutput) (t : Trace)
    (h : get_input_core env plat l resolve = (.ok b, t)) :
    b.network_interfaces = (collect_available env (l.filter is_usable)).1 ∧
    b.network_frames = (collect_available env (l.filter is_usable)).2 ∧
    ¬(collect_available env (l.filter is_usable)).2 = [] := by
  unfold get_input_core at h
  by_cases he : (collect_available env (l.filter is_usable)).2.isEmpty
  · simp [he] at h
  · simp only [he, Bool.false_eq_true, if_false] at h
    cases hs : sigwinch env.signalsNew with
    | panicked => simp [hs] at h
    | handlers =>
        simp only [hs] at h
        cases hd : (if resolve then dns_step env else .ok none) with
        | error e => simp [hd] at h
        | ok c =>
            simp only [hd] at h
            rw [Prod.mk.injEq] at h
            obtain ⟨h1, -⟩ := h
            injection h1 with hb
            subst hb
            exact ⟨rfl, rfl, fun hnil => he (by simp [hnil])⟩

end Bandwhich

namespace Bandwhich

lemma candidates_of_sublist (env : Env) (name : Option String)
    (l : List NetworkInterface) (h : candidates_of env name = some l) :
    l.Sublist env.interfaces := by
  cases name with
  | none =>
      simp only [candidates_of, Option.some.injEq] at h
      subst h
      exact List.Sublist.refl _
  | some n =>
      simp only [candidates_of] at h
      cases hf : get_interface env n with
      | none => rw [hf] at h; exact absurd h (by simp)
      | some iface =>
          rw [hf] at h
          obtain rfl : [iface] = l := by simpa using h
          have hm : iface ∈ env.interfaces := List.mem_of_find?_eq_some hf
          exact List.singleton_sublist.mpr hm

lemma get_input_eq_core (env : Env) (plat : Platform) (name : Option String)
    (resolve : Bool) (l : List NetworkInterface)
    (h : candidates_of env name = some l) :
    get_input env plat name resolve = get_input_core env plat l resolve := by
  cases name with
  | none =>
      simp only [candidates_of, Option.some.injEq] at h
      subst h
      rfl
  | some n =>
      simp only [candidates_of] at h
      cases hf : get_interface env n with
      | none => rw [hf] at h; exact absurd h (by simp)
      | some iface =>
          rw [hf] at h
          obtain rfl : [iface] = l := by simpa using h
          simp [get_input, hf]

lemma get_input_not_found (env : Env) (plat : Platform) (n : String)
    (resolve : Bool) (h : get_interface env n = none) :
    get_input env plat (some n) resolve =
      (.err (.bail ("Cannot find interface " ++ n)),
       { openAttempts := [], dnsAttempted := false }) := by
  simp [get_input, h]

lemma dns_step_error_shape (env : Env) (e : BError)
    (h : dns_step env = .error e) :
    e = .bail "Could not initialize the DNS resolver. Are you offline?" ∨
    (∃ s, e = .runtimeCreation s) ∨ (∃ s, e = .dnsClientCreation s) := by
  unfold dns_step at h
  cases hr : env.runtimeNew with
  | error s =>
      rw [hr] at h
      simp only [Except.error.injEq] at h
      subst h
      exact Or.inr (Or.inl ⟨s, rfl⟩)
  | ok u =>
      rw [hr] at h
      cases hres : env.resolverNew with
      | error v =>
          rw [hres] at h
          simp only [Except.error.injEq] at h
          subst h
          exact Or.inl rfl
      | ok v =>
          rw [hres] at h
          cases hc : env.clientNew with
          | error s =>
              rw [hc] at h
              simp only [Except.error.injEq] at h
              subst h
              exact Or.inr (Or.inr ⟨s, rfl⟩)
          | ok w => rw [hc] at h; simp at h

lemma get_input_core_err_shape (env : Env) (plat : Platform)
    (l : List NetworkInterface) (resolve : Bool) (e : BError)
    (h : ¬(collect_available env (l.filter is_usable)).2 = [])
    (he : (get_input_core env plat l resolve).1 = .err e) :
    e = .bail "Could not initialize the DNS resolver. Are you offline?" ∨
    (∃ s, e = .runtimeCreation s) ∨ (∃ s, e = .dnsClientCreation s) := by
  unfold get_input_core at he
  have hne : (collect_available env (l.filter is_usable)).2.isEmpty = false := by
    simpa [List.isEmpty_iff] using h
  simp only [hne, Bool.false_eq_true, if_false] at he
  cases hs : sigwinch env.signalsNew with
  | panicked => rw [hs] at he; simp at he
  | handlers =>
      rw [hs] at he
      cases hd : (if resolve then dns_step env else .ok none) with
      | error e2 =>
          rw [hd] at he
          simp only [Outcome.err.injEq] at he
          subst he
          cases resolve with
          | false => simp at hd
          | true =>
              simp only [if_true] at hd
              exact dns_step_error_shape env e2 hd
      | ok c => rw [hd] at he; simp at he

lemma get_input_core_dns_false (env : Env) (plat : Platform)
    (l : List NetworkInterface) :
    (get_input_core env plat l false).2.dnsAttempted = false := by
  unfold get_input_core
  by_cases h : (collect_available env (l.filter is_usable)).2.isEmpty
  · simp [h]
  · rw [if_neg h]
    cases hs : sigwinch env.signalsNew with
    | panicked => simp [hs]
    | handlers => simp [hs]

lemma get_input_core_env_congr (env env' : Env) (plat : Platform)
    (l : List NetworkInterface)
    (hch : env'.channel = env.channel) (hsig : env'.signalsNew = env.signalsNew) :
    get_input_core env' plat l false = get_input_core env plat l false := by
  have hca : ∀ m, collect_available env' m = collect_available env m := by
    intro m
    induction m with
    | nil => rfl
    | cons a rest ih => simp only [collect_available, hch, ih]
  have hif : ∀ m, inspect_failures env' plat m = inspect_failures env plat m := by
    intro m
    induction m with
    | nil => rfl
    | cons a rest ih => simp only [inspect_failures, hch, ih]
  unfold get_input_core
  simp only [hca, hif, hsig]
  simp

lemma get_input_core_ok_inv (env : Env) (plat : Platform)
    (l : List NetworkInterface) (resolve : Bool) (b : OsInputOutput) (t : Trace)
    (h : get_input_core env plat l resolve = (.ok b, t)) :
    ¬(collect_available env (l.filter is_usable)).2 = [] ∧
    env.signalsNew = .ok () ∧
    (if resolve then dns_step env else .ok none) = .ok b.dns_client ∧
    b = mk_bundle (collect_available env (l.filter is_usable)).1
          (collect_available env (l.filter is_usable)).2 b.dns_client ∧
    t = { openAttempts := (l.filter is_usable).map (fun iface => iface.name)
          dnsAttempted := resolve } := by
  unfold get_input_core at h
  by_cases he : (collect_available env (l.filter is_usable)).2.isEmpty
  · simp [he] at h
  · rw [if_neg he] at h
    cases hs : sigwinch env.signalsNew with
    | panicked => rw [hs] at h; simp at h
    | handlers =>
        rw [hs] at h
        have hsok : env.signalsNew = .ok () := by
          unfold sigwinch at hs
          cases hv : env.signalsNew with
          | ok u => rfl
          | error s => rw [hv] at hs; simp at hs
        cases hd : (if resolve then dns_step env else .ok none) with
        | error e => rw [hd] at h; simp at h
        | ok c =>
            rw [hd] at h
            rw [Prod.mk.injEq] at h
            obtain ⟨h1, h2⟩ := h
            injection h1 with hb
            subst hb
            subst h2
            refine ⟨fun hnil => he (by simp [hnil]), hsok, ?_, rfl, rfl⟩
            rfl

lemma on_winch_run_all (sigs : List Nat) :
    ∀ calls, (∀ s ∈ sigs, s = SIGWINCH) →
      on_winch_run sigs calls = .stopped (calls + sigs.length) := by
  induction sigs with
  | nil => intro calls _; simp [on_winch_run]
  | cons a rest ih =>
      intro calls h
      have ha : a = SIGWINCH := h a (by simp)
      simp only [on_winch_run]
      rw [if_pos ha, ih (calls + 1) (fun s hs => h s (by simp [hs]))]
      have hlen : (a :: rest).length = rest.length + 1 := rfl
      rw [hlen]
      congr 1
      omega

lemma on_winch_run_bad (sigs : List Nat) :
    ∀ calls s, s ∈ sigs → s ≠ SIGWINCH → on_winch_run sigs calls = .panicked := by
  induction sigs with
  | nil => intro calls s hs; simp at hs
  | cons a rest ih =>
      intro calls s hs hne
      simp only [on_winch_run]
      by_cases ha : a = SIGWINCH
      · rw [if_pos ha]
        rcases List.mem_cons.mp hs with rfl | hmem
        · exact absurd ha hne
        · exact ih (calls + 1) s hmem hne
      · rw [if_neg ha]

end Bandwhich

namespace Bandwhich

/-- C1: for every successful bootstrap, the bundle returned by `get_input`
holds the available interfaces and their capture channels as same-length,
non-empty parallel sequences in which element i's channel was opened on
element i's interface, and the interface sequence follows the directory's
discovery order filtered in place (it is a sublist of the directory, never
re-sorted). -/
theorem get_input_success_parallel_sequences
    (env : Env) (plat : Platform) (name : Option String) (resolve : Bool)
    (b : OsInputOutput) (t : Trace)
    (h : get_input env plat name resolve = (.ok b, t)) :
    b.network_interfaces ≠ [] ∧
    b.network_frames ≠ [] ∧
    b.network_interfaces.length = b.network_frames.length ∧
    (∀ (i : Nat) (iface : NetworkInterface),
       b.network_interfaces.get? i = some iface →
       ∃ rx, b.network_frames.get? i = some rx ∧
         get_datalink_channel env.channel iface = .ok rx) ∧
    b.network_interfaces.Sublist env.interfaces := by
  have hex : ∃ l, candidates_of env name = some l := by
    cases name with
    | none => exact ⟨env.interfaces, rfl⟩
    | some n =>
        cases hf : get_interface env n with
        | none =>
            exfalso
            rw [get_input_not_found env plat n resolve hf] at h
            simp at h
        | some iface => exact ⟨[iface], by simp [candidates_of, hf]⟩
  obtain ⟨l, hl⟩ := hex
  rw [get_input_eq_core env plat name resolve l hl] at h
  obtain ⟨hi, hf2, hne⟩ := get_input_core_ok_shape env plat l resolve b t h
  have hlen := collect_available_length env (l.filter is_usable)
  have hsub := collect_available_sublist env (l.filter is_usable)
  have hsub2 : (l.filter is_usable).Sublist l := List.filter_sublist l
  have hsub3 := candidates_of_sublist env name l hl
  refine ⟨?_, ?_, ?_, ?_, ?_⟩
  · rw [hi]
    intro hnil
    apply hne
    rw [hnil] at hlen
    exact List.eq_nil_of_length_eq_zero (by simpa using hlen.symm)
  · rw [hf2]; exact hne
  · rw [hi, hf2]; exact hlen
  · intro i iface hg
    rw [hi] at hg
    rw [hf2]
    exact collect_available_spec env (l.filter is_usable) i iface hg
  · rw [hi]
    exact (hsub.trans hsub2).trans hsub3

/-- Witness for C1 at a concrete successful bootstrap. -/
theorem get_input_success_parallel_sequences_witness :
    (mk_bundle [eth0] [7] none).network_interfaces ≠ [] ∧
    (mk_bundle [eth0] [7] none).network_frames ≠ [] ∧
    (mk_bundle [eth0] [7] none).network_interfaces.length =
      (mk_bundle [eth0] [7] none).network_frames.length ∧
    (∀ (i : Nat) (iface : NetworkInterface),
       (mk_bundle [eth0] [7] none).network_interfaces.get? i = some iface →
       ∃ rx, (mk_bundle [eth0] [7] none).network_frames.get? i = some rx ∧
         get_datalink_channel env_ok.channel iface = .ok rx) ∧
    (mk_bundle [eth0] [7] none).network_interfaces.Sublist env_ok.interfaces :=
  get_input_success_parallel_sequences env_ok .linux none false
    (mk_bundle [eth0] [7] none)
    { openAttempts := ["eth0"], dnsAttempted := false } (by decide)

end Bandwhich

namespace Bandwhich

/-- C2: whenever the subsequence of successfully opened channels is empty,
`get_input` fails — with the platform permission message if any
per-interface failure has kind PermissionDenied, otherwise with exactly
"Failed to find any network interface to listen on." — while a bootstrap
in which at least one channel opened never produces either of these two
errors. -/
theorem empty_available_error_classification
    (env : Env) (plat : Platform) (name : Option String) (resolve : Bool)
    (l : List NetworkInterface) (hl : candidates_of env name = some l) :
    ((collect_available env (l.filter is_usable)).2 = [] →
       (get_input env plat name resolve).1 =
         .err (.bail (if (l.filter is_usable).any (has_perm_error env)
                      then eperm_message plat
                      else "Failed to find any network interface to listen on."))) ∧
    ((collect_available env (l.filter is_usable)).2 ≠ [] →
       (get_input env plat name resolve).1 ≠ .err (.bail (eperm_message plat)) ∧
       (get_input env plat name resolve).1 ≠
         .err (.bail "Failed to find any network interface to listen on.")) := by
  rw [get_input_eq_core env plat name resolve l hl]
  constructor
  · intro h
    rw [get_input_core_empty_err env plat l resolve h, inspect_failures_fst]
  · intro h
    constructor
    · intro he
      obtain h1 | ⟨s, h2⟩ | ⟨s, h3⟩ :=
        get_input_core_err_shape env plat l resolve _ h he
      · have hm : eperm_message plat =
            "Could not initialize the DNS resolver. Are you offline?" := by
          injection h1
        cases plat <;> exact absurd hm (by decide)
      · exact BError.noConfusion h2
      · exact BError.noConfusion h3
    · intro he
      obtain h1 | ⟨s, h2⟩ | ⟨s, h3⟩ :=
        get_input_core_err_shape env plat l resolve _ h he
      · have hm : "Failed to find any network interface to listen on." =
            "Could not initialize the DNS resolver. Are you offline?" := by
          injection h1
        exact absurd hm (by decide)
      · exact BError.noConfusion h2
      · exact BError.noConfusion h3

/-- Witness for C2 at a concrete all-permission-denied bootstrap. -/
theorem empty_available_error_classification_witness :
    (get_input env_perm .macos none false).1 =
      .err (.bail (if (env_perm.interfaces.filter is_usable).any (has_perm_error env_perm)
                   then eperm_message .macos
                   else "Failed to find any network interface to listen on.")) :=
  (empty_available_error_classification env_perm .macos none false
    env_perm.interfaces rfl).1 (by decide)

end Bandwhich

namespace Bandwhich

/-- Counterexample to C3 as stated: with one usable candidate whose channel
open fails with a non-permission error, the failing bootstrap invokes the
channel opener on that interface twice — once in the collection pass and
once more in the error-inspection pass over the re-cloned lazy iterator —
so acquisition is not attempted exactly once per usable candidate. -/
theorem channel_acquisition_once_counterexample :
    (get_input env_other .linux none false).2.openAttempts = ["eth0", "eth0"] ∧
    ¬((get_input env_other .linux none false).2.openAttempts.count "eth0" = 1) := by
  decide

/-- C3 amended: channel acquisition is attempted once per usable candidate
during the collection pass; when that pass yields no channel at all, the
empty-available path re-evaluates the lazy pipeline, re-attempting
acquisition per candidate (up to the first permission failure) and
inspecting the re-derived errors — identical to the recorded ones since
the opener is deterministic — so the first usable candidate is attempted
at least twice on that path. -/
theorem channel_acquisition_trace_amended
    (env : Env) (plat : Platform) (name : Option String) (resolve : Bool)
    (l : List NetworkInterface) (hl : candidates_of env name = some l) :
    ((get_input env plat name resolve).2.openAttempts =
       (l.filter is_usable).map (fun iface => iface.name) ++
         (if (collect_available env (l.filter is_usable)).2.isEmpty
          then (inspect_failures env plat (l.filter is_usable)).2 else [])) ∧
    ((collect_available env (l.filter is_usable)).2 = [] →
       ∀ (a : NetworkInterface) (rest : List NetworkInterface),
         l.filter is_usable = a :: rest →
         2 ≤ (get_input env plat name resolve).2.openAttempts.count a.name) := by
  rw [get_input_eq_core env plat name resolve l hl]
  refine ⟨get_input_core_trace env plat l resolve, ?_⟩
  intro hempty a rest hcons
  rw [get_input_core_trace env plat l resolve]
  have hisEmpty : (collect_available env (l.filter is_usable)).2.isEmpty = true := by
    simp [hempty]
  rw [if_pos hisEmpty]
  obtain ⟨tl, htl⟩ := inspect_failures_snd_cons env plat a rest
  rw [hcons, htl, List.count_append]
  simp only [List.map_cons, List.count_cons_self]
  omega

/-- Witness for the amended C3 at a concrete failing bootstrap. -/
theorem channel_acquisition_trace_amended_witness :
    2 ≤ (get_input env_other .linux none false).2.openAttempts.count eth0.name :=
  (channel_acquisition_trace_amended env_other .linux none false
    env_other.interfaces rfl).2 (by decide) eth0 [] (by decide)

/-- C4: for every interface directory containing no interface named X,
calling get_input with interface name X fails with exactly
"Cannot find interface X" (the name verbatim) and attempts no channel
acquisition. -/
theorem interface_not_found_exact_message
    (env : Env) (plat : Platform) (X : String) (resolve : Bool)
    (h : ∀ iface ∈ env.interfaces, iface.name ≠ X) :
    get_input env plat (some X) resolve =
      (.err (.bail ("Cannot find interface " ++ X)),
       { openAttempts := [], dnsAttempted := false }) := by
  have hf : get_interface env X = none := by
    unfold get_interface
    rw [List.find?_eq_none]
    intro iface hm
    simpa using h iface hm
  exact get_input_not_found env plat X resolve hf

/-- Witness for C4 at a concrete directory without the requested name. -/
theorem interface_not_found_exact_message_witness :
    get_input env_ok .linux (some "wlan0") false =
      (.err (.bail ("Cannot find interface " ++ "wlan0")),
       { openAttempts := [], dnsAttempted := false }) :=
  interface_not_found_exact_message env_ok .linux "wlan0" false (by decide)

/-- C5: the channel factory consults the opener only at the config with the
1-second read timeout, returns Ok exactly for Ethernet channels (yielding
the receiver), maps any other successfully opened channel kind to the
"Unsupported interface type" error of kind Other, and passes an opener
failure through with its classification (kind and message) unchanged. -/
theorem capture_channel_factory_contract
    (f g : NetworkInterface → Config → Except IoError Channel)
    (iface : NetworkInterface) :
    (f iface { readTimeout := some (1, 0) } = g iface { readTimeout := some (1, 0) } →
       get_datalink_channel f iface = get_datalink_channel g iface) ∧
    (∀ rx, get_datalink_channel f iface = .ok rx →
       ∃ tx, f iface { readTimeout := some (1, 0) } = .ok (.ethernet tx rx)) ∧
    (∀ c, f iface { readTimeout := some (1, 0) } = .ok c →
       (∀ tx rx, c ≠ .ethernet tx rx) →
       get_datalink_channel f iface =
         .error { kind := .other, msg := "Unsupported interface type" }) ∧
    (∀ e, f iface { readTimeout := some (1, 0) } = .error e →
       get_datalink_channel f iface = .error e) := by
  refine ⟨?_, ?_, ?_, ?_⟩
  · intro h
    simp only [get_datalink_channel]
    rw [h]
  · intro rx h
    simp only [get_datalink_channel] at h
    cases hc : f iface { readTimeout := some (1, 0) } with
    | error e => rw [hc] at h; simp at h
    | ok c =>
        rw [hc] at h
        cases c with
        | ethernet tx rx2 =>
            simp only [Except.ok.injEq] at h
            subst h
            exact ⟨tx, rfl⟩
        | unsupported tag => simp at h
  · intro c h hne
    simp only [get_datalink_channel]
    rw [h]
    cases c with
    | ethernet tx rx => exact absurd rfl (hne tx rx)
    | unsupported tag => rfl
  · intro e h
    simp only [get_datalink_channel]
    rw [h]

/-- Witness for C5: a permission failure passes through unchanged. -/
theorem capture_channel_factory_contract_witness :
    get_datalink_channel chan_perm eth0 =
      .error { kind := .permissionDenied, msg := "eperm" } :=
  (capture_channel_factory_contract chan_perm chan_perm eth0).2.2.2
    { kind := .permissionDenied, msg := "eperm" } rfl

end Bandwhich

namespace Bandwhich

/-- Counterexample to C6 as stated: a DNS bootstrap failure in the client
wrapping step is propagated verbatim, not reported with the fixed
resolver message. -/
theorem dns_bootstrap_failure_counterexample :
    env_dnsclient.clientNew = .error "client construction failed" ∧
    (get_input env_dnsclient .linux none true).1 =
      .err (.dnsClientCreation "client construction failed") ∧
    (get_input env_dnsclient .linux none true).1 ≠
      .err (.bail "Could not initialize the DNS resolver. Are you offline?") :=
  ⟨rfl, by decide, by decide⟩

/-- C6 amended: when resolution is requested and the synchronous resolver
construction fails, get_input fails with exactly "Could not initialize the
DNS resolver. Are you offline?" and returns no bundle; failures creating
the background execution context or wrapping the client are instead
propagated verbatim; the DNS step runs only after channel acquisition has
succeeded (it is never reached when no channel opened). -/
theorem dns_resolver_failure_message
    (env : Env) (plat : Platform) (name : Option String)
    (l : List NetworkInterface) (hl : candidates_of env name = some l) :
    ((collect_available env (l.filter is_usable)).2 ≠ [] →
       env.signalsNew = .ok () →
       env.runtimeNew = .ok () →
       env.resolverNew = .error () →
       get_input env plat name true =
         (.err (.bail "Could not initialize the DNS resolver. Are you offline?"),
          { openAttempts := (l.filter is_usable).map (fun iface => iface.name)
            dnsAttempted := true })) ∧
    ((collect_available env (l.filter is_usable)).2 = [] →
       (get_input env plat name true).2.dnsAttempted = false) := by
  rw [get_input_eq_core env plat name true l hl]
  constructor
  · intro hne hs hr hres
    rw [get_input_core_nonempty env plat l true hne hs]
    have hd : dns_step env =
        .error (.bail "Could not initialize the DNS resolver. Are you offline?") := by
      unfold dns_step
      rw [hr, hres]
    simp [hd]
  · intro h
    exact get_input_core_dns_empty env plat l true h

/-- Witness for the amended C6 at a concrete resolver failure. -/
theorem dns_resolver_failure_message_witness :
    get_input env_resolver_fail .linux none true =
      (.err (.bail "Could not initialize the DNS resolver. Are you offline?"),
       { openAttempts :=
           (env_resolver_fail.interfaces.filter is_usable).map (fun iface => iface.name)
         dnsAttempted := true }) :=
  (dns_resolver_failure_message env_resolver_fail .linux none
    env_resolver_fail.interfaces rfl).1 (by decide) rfl rfl rfl

end Bandwhich

namespace Bandwhich

/-- C7: with the resolve flag false, no DNS client construction is
attempted (the DNS bootstrap is never reached and the outcome is
independent of the runtime / resolver / client construction oracles),
the returned bundle's dns_client field is none, and all other bundle
fields and the trace are exactly as in the resolve-enabled case. -/
theorem resolve_disabled_no_dns
    (env : Env) (plat : Platform) (name : Option String)
    (r1 : Except String Unit) (r2 : Except Unit Unit) (r3 : Except String Unit) :
    (get_input env plat name false).2.dnsAttempted = false ∧
    get_input { env with runtimeNew := r1, resolverNew := r2, clientNew := r3 }
        plat name false = get_input env plat name false ∧
    (∀ b t, get_input env plat name true = (.ok b, t) →
       get_input env plat name false =
         (.ok { b with dns_client := none }, { t with dnsAttempted := false })) := by
  refine ⟨?_, ?_, ?_⟩
  · cases name with
    | none => exact get_input_core_dns_false env plat env.interfaces
    | some n =>
        cases hf : get_interface env n with
        | none => rw [get_input_not_found env plat n false hf]
        | some iface =>
            rw [get_input_eq_core env plat (some n) false [iface]
                  (by simp [candidates_of, hf])]
            exact get_input_core_dns_false env plat [iface]
  · cases name with
    | none =>
        exact get_input_core_env_congr env
          { env with runtimeNew := r1, resolverNew := r2, clientNew := r3 }
          plat env.interfaces rfl rfl
    | some n =>
        cases hf : get_interface env n with
        | none =>
            have hf2 : get_interface
                { env with runtimeNew := r1, resolverNew := r2, clientNew := r3 } n =
                none := hf
            rw [get_input_not_found _ plat n false hf2,
                get_input_not_found env plat n false hf]
        | some iface =>
            have hf2 : get_interface
                { env with runtimeNew := r1, resolverNew := r2, clientNew := r3 } n =
                some iface := hf
            rw [get_input_eq_core _ plat (some n) false [iface]
                  (by simp [candidates_of, hf2]),
                get_input_eq_core env plat (some n) false [iface]
                  (by simp [candidates_of, hf])]
            exact get_input_core_env_congr env
              { env with runtimeNew := r1, resolverNew := r2, clientNew := r3 }
              plat [iface] rfl rfl
  · intro b t h
    have hex : ∃ l, candidates_of env name = some l := by
      cases name with
      | none => exact ⟨env.interfaces, rfl⟩
      | some n =>
          cases hf : get_interface env n with
          | none =>
              exfalso
              rw [get_input_not_found env plat n true hf] at h
              simp at h
          | some iface => exact ⟨[iface], by simp [candidates_of, hf]⟩
    obtain ⟨l, hl⟩ := hex
    rw [get_input_eq_core env plat name true l hl] at h
    obtain ⟨hne, hsok, hd, hb, ht⟩ := get_input_core_ok_inv env plat l true b t h
    rw [get_input_eq_core env plat name false l hl,
        get_input_core_nonempty env plat l false hne hsok]
    subst ht
    rw [hb]
    rfl

/-- Witness for C7 at a concrete environment where both modes succeed. -/
theorem resolve_disabled_no_dns_witness :
    get_input env_ok .linux none false =
      (.ok { mk_bundle [eth0] [7] (some ()) with dns_client := none },
       { ({ openAttempts := ["eth0"], dnsAttempted := true } : Trace) with
           dnsAttempted := false }) :=
  (resolve_disabled_no_dns env_ok .linux none (.ok ()) (.ok ()) (.ok ())).2.2
    (mk_bundle [eth0] [7] (some ()))
    { openAttempts := ["eth0"], dnsAttempted := true } (by decide)

/-- C8: the keyboard stream yields an event exactly when the underlying
read succeeds, conflates a read error with end of input (both yield no
item), and once the underlying source is closed (exhausted) every
subsequent pull yields no further items. -/
theorem keyboard_stream_contract :
    (∀ (ev : Event) (rest : List (Except String Event)),
       keyboard_events_next (Except.ok ev :: rest) = (some ev, rest)) ∧
    (∀ (e : String) (rest : List (Except String Event)),
       keyboard_events_next (Except.error e :: rest) = (none, rest)) ∧
    keyboard_events_next [] = (none, []) ∧
    (∀ n : Nat, keyboard_pulls n [] = List.replicate n none) := by
  refine ⟨fun ev rest => rfl, fun e rest => rfl, rfl, ?_⟩
  intro n
  induction n with
  | zero => rfl
  | succ m ih =>
      simp [keyboard_pulls, keyboard_events_next, ih, List.replicate_succ]

/-- C9: the output sink writes the line plus a line terminator to the
flushed standard output on success, and a write failure is fatal — it
panics and never returns an error value to the caller. -/
theorem output_sink_contract (write_succeeds : Bool) (output : String)
    (lines : List String) :
    (write_succeeds = true →
       write_to_stdout write_succeeds output lines = .ok (lines ++ [output ++ "\n"])) ∧
    (write_succeeds = false →
       write_to_stdout write_succeeds output lines = .panicked) ∧
    (∀ e, write_to_stdout write_succeeds output lines ≠ .err e) := by
  refine ⟨?_, ?_, ?_⟩
  · intro h
    simp [write_to_stdout, h]
  · intro h
    simp [write_to_stdout, h]
  · intro e
    cases write_succeeds <;> simp [write_to_stdout]

/-- Witness for C9 at a concrete successful write. -/
theorem output_sink_contract_witness :
    write_to_stdout true "hello" [] = .ok (([] : List String) ++ ["hello" ++ "\n"]) :=
  (output_sink_contract true "hello" []).1 rfl

/-- C10: signal-bridge construction subscribes eagerly and panics (so a
bootstrap that has acquired channels ends panicked, not with a Result
error) when registration fails; when it succeeds, the registered callback
runs exactly once per SIGWINCH, and any other delivered signal hits the
unreachable / fatal branch. -/
theorem signal_bridge_contract
    (env : Env) (plat : Platform) (name : Option String) (resolve : Bool)
    (l : List NetworkInterface) (s : String) :
    sigwinch (.error s) = .panicked ∧
    (∀ u : Unit, sigwinch (.ok u) = .handlers) ∧
    (candidates_of env name = some l →
       (collect_available env (l.filter is_usable)).2 ≠ [] →
       env.signalsNew = .error s →
       (get_input env plat name resolve).1 = .panicked) ∧
    (∀ sigs : List Nat, (∀ x ∈ sigs, x = SIGWINCH) →
       on_winch_run sigs 0 = .stopped sigs.length) ∧
    (∀ (sigs : List Nat) (x : Nat), x ∈ sigs → x ≠ SIGWINCH →
       on_winch_run sigs 0 = .panicked) := by
  refine ⟨rfl, fun u => rfl, ?_, ?_, ?_⟩
  · intro hl hne hs
    rw [get_input_eq_core env plat name resolve l hl]
    exact get_input_core_sig_panic env plat l resolve hne s hs
  · intro sigs h
    have hrun := on_winch_run_all sigs 0 h
    simpa using hrun
  · intro sigs x hx hxne
    exact on_winch_run_bad sigs 0 x hx hxne

/-- Witness for C10 at a concrete failing registration. -/
theorem signal_bridge_contract_witness :
    (get_input env_sigfail .linux none false).1 = .panicked :=
  (signal_bridge_contract env_sigfail .linux none false env_sigfail.interfaces
    "signal registration failed").2.2.1 rfl (by decide) rfl

end Bandwhich
